import Mathlib

set_option maxRecDepth 100000

/-!
Verification development for the crypto_balancer repository.

The repository ships a single driver module, crypto_balancer/main.py.  Its
collaborators (CCXTExchange, Portfolio, SimpleBalancer, Executor) are imported
but their sources are not part of the repository snapshot; where a claim
depends on them they are modelled from the specification (each such definition
carries a doc comment starting with "Modelled from the spec:").

Numbers are embedded as rationals.  The driver converts configuration strings
with Python's float(), an IEEE-754 binary64 conversion; that conversion is
modelled exactly (round to nearest, ties to even) by toFloat64 below, so the
driver's arithmetic on parsed values is reproduced bit-for-bit (in value) for
inputs in the normal range.  Subnormal and overflow ranges never arise for
percentage/threshold inputs and are not modelled.
-/

/-- Pricing mode, the closed enumeration of main.py line 153
(argparse choices mid / passive / cheap). -/
inductive Mode where
  | mid
  | passive
  | cheap
deriving DecidableEq

/-- Order side. -/
inductive Side where
  | BUY
  | SELL
deriving DecidableEq

/-- Order lifecycle state (spec 4.4).  Only the states a dry run or a single
submission attempt can reach are needed by the claims. -/
inductive OrderStatus where
  | PROPOSED
  | FILLED
  | REJECTED
  | SUBMIT_ERROR
deriving DecidableEq

/-- An order proposal: asset, side, amount, limit price, pricing mode (spec 3). -/
structure Order where
  asset : String
  side : Side
  amount : ℚ
  limit_price : ℚ
  mode : Mode
deriving DecidableEq

inductive LogLevel where
  | info
  | warning
  | error
deriving DecidableEq

/-- Observable effects of one balancing run.  Venue events record every network
contact (adapter construction, balance/price fetches, cancellations, order
submission); log events record the driver's and adapter's log lines. -/
inductive Event where
  | exchange_init (name : String)
  | cancel_open_orders
  | fetch_balances
  | fetch_prices
  | submit_order (o : Order)
  | log (lvl : LogLevel) (msg : String)
deriving DecidableEq

/-- True exactly for events that contact the trading venue. -/
def Event.is_venue : Event → Bool
  | .exchange_init _ => true
  | .cancel_open_orders => true
  | .fetch_balances => true
  | .fetch_prices => true
  | .submit_order _ => true
  | .log _ _ => false

def Event.is_submit : Event → Bool
  | .submit_order _ => true
  | _ => false

/-! ### IEEE-754 binary64 value model

Python's float type is IEEE-754 binary64.  main.py converts every numeric
configuration string with float() (lines 24 and 49) and sums parsed targets
with float addition (line 29).  The value of a binary64 operation in the
normal range is the exact result rounded to 53 significant bits, round to
nearest, ties to even; toFloat64 computes that rounding on rationals. -/

/-- An integer as a rational.  (Rat.divInt is used rather than the Int.cast
coercion so the kernel evaluates large values without unary recursion.) -/
def z2q (n : ℤ) : ℚ := Rat.divInt n 1

/-- A natural number as a rational. -/
def n2q (n : ℕ) : ℚ := Rat.divInt (Int.ofNat n) 1

/-! Arithmetic on ℚ is written with the four operations below, which are
definitionally transparent (the core Rat operations are irreducible, which
blocks kernel evaluation by decide); the bridge lemmas qadd_eq .. qdiv_eq
identify them with the standard field operations for symbolic reasoning. -/

def qadd (a b : ℚ) : ℚ := Rat.divInt (a.num * b.den + b.num * a.den) (a.den * b.den)

def qsub (a b : ℚ) : ℚ := Rat.divInt (a.num * b.den - b.num * a.den) (a.den * b.den)

def qmul (a b : ℚ) : ℚ := Rat.divInt (a.num * b.num) (a.den * b.den)

def qdiv (a b : ℚ) : ℚ := Rat.divInt (a.num * b.den) (a.den * b.num)

def qabs (q : ℚ) : ℚ := if q < 0 then -q else q

/-- Round a rational to the nearest integer, ties to even. -/
def nearest_even (x : ℚ) : ℤ :=
  let f : ℤ := Rat.floor x
  let r : ℚ := qsub x (z2q f)
  if r < Rat.divInt 1 2 then f
  else if Rat.divInt 1 2 < r then f + 1
  else if f % 2 = 0 then f else f + 1

/-- Number of halvings of q (taken at least 1) until it drops below 2:
the binary exponent of q ≥ 1.  Fuel-bounded structural recursion so the
kernel can evaluate it; any fuel of at least log2 q steps gives the value. -/
def pos_exp (fuel : ℕ) (q : ℚ) : ℕ :=
  match fuel with
  | 0 => 0
  | f + 1 => if q < 2 then 0 else pos_exp f (qdiv q 2) + 1

/-- Number of doublings of q (taken in (0, 1)) needed to reach at least 1. -/
def neg_exp (fuel : ℕ) (q : ℚ) : ℕ :=
  match fuel with
  | 0 => 0
  | f + 1 => if 1 ≤ q then 0 else neg_exp f (qmul q 2) + 1

/-- Floor of the binary logarithm of a positive rational: the unique e with
2^e ≤ q < 2^(e+1).  q.num.natAbs and q.den bound the recursion depth. -/
def ilog2 (q : ℚ) : ℤ :=
  if 1 ≤ q then (pos_exp q.num.natAbs q : ℤ) else -(neg_exp q.den q : ℤ)

/-- 2^z as a rational, for an integer z of either sign. -/
def pow2z (z : ℤ) : ℚ :=
  if 0 ≤ z then Rat.divInt (Int.ofNat (2 ^ z.toNat)) 1
  else Rat.divInt 1 (Int.ofNat (2 ^ (-z).toNat))

/-- Binary64 rounding of a positive rational: with e = floor(log2 q) and
s = 52 - e, the result is (nearest integer, ties to even, of q * 2^s) / 2^s,
i.e. the nearest 53-significant-bit dyadic. -/
def toFloat64_pos (q : ℚ) : ℚ :=
  let s : ℤ := 52 - ilog2 q
  qmul (z2q (nearest_even (qmul q (pow2z s)))) (pow2z (-s))

/-- The binary64 value nearest to a rational (round to nearest, ties to
even), ignoring the subnormal and overflow ranges, which do not arise for
the inputs the driver handles. -/
def toFloat64 (q : ℚ) : ℚ :=
  if q = 0 then 0
  else if q < 0 then -toFloat64_pos (-q)
  else toFloat64_pos q

/-- Python float addition: exact sum rounded to binary64. -/
def py_add (a b : ℚ) : ℚ := toFloat64 (qadd a b)

/-- Python's sum() over a list of floats: left fold of float addition
starting from 0 (main.py line 29). -/
def py_sum (l : List ℚ) : ℚ := l.foldl py_add 0

/-! ### Python string parsing model (main.py lines 23-24)

targets = [x.split() for x in portfolio_config['targets'].split('\n')]
targets = dict([[a, float(b)] for (a, b) in targets])

A line with a token count other than two raises ValueError at the tuple
unpacking; a second token that float() rejects raises ValueError at the
conversion; both are caught by the same handler (lines 25-27).  float() is
modelled for plain decimal literals (optional sign, digits, optional point),
the grammar configuration files use. -/

/-- Split a character list at every occurrence of sep (Python str.split(sep):
n separators give n+1 fields, empty fields kept). -/
def split_on_char (sep : Char) : List Char → List (List Char)
  | [] => [[]]
  | c :: cs =>
    match split_on_char sep cs with
    | [] => if c = sep then [[], []] else [[c]]
    | h :: t => if c = sep then [] :: h :: t else (c :: h) :: t

/-- Python s.split(sep) for a one-character separator. -/
def py_split_lines (s : String) : List String :=
  (split_on_char '\n' s.toList).map String.mk

/-- Python str.split() with no argument: split on whitespace runs, dropping
empty fields.  The configuration grammar uses spaces. -/
def py_split_ws (s : String) : List String :=
  ((split_on_char ' ' s.toList).filter (fun t => t ≠ [])).map String.mk

/-- Consume leading decimal digits: accumulated value, digit count, rest. -/
def take_digits (acc : ℕ) (count : ℕ) : List Char → ℕ × ℕ × List Char
  | [] => (acc, count, [])
  | c :: cs =>
    if c.isDigit then take_digits (acc * 10 + (c.toNat - 48)) (count + 1) cs
    else (acc, count, c :: cs)

/-- Unsigned decimal literal: digits, optionally a point and more digits,
at least one digit in total.  Returns the exact rational denoted. -/
def decimal_core (cs : List Char) : Option ℚ :=
  let (ip, ic, r1) := take_digits 0 0 cs
  match r1 with
  | [] => if ic = 0 then none else some (n2q ip)
  | '.' :: r2 =>
    let (fp, fc, r3) := take_digits 0 0 r2
    if r3 = [] ∧ ic + fc ≠ 0 then some (qdiv (n2q (ip * 10 ^ fc + fp)) (n2q (10 ^ fc)))
    else none
  | _ => none

/-- Python float(string) for plain decimal literals: the denoted rational
rounded to binary64; none when the string is not a decimal literal
(ValueError in Python). -/
def py_float? (s : String) : Option ℚ :=
  let core :=
    match s.toList with
    | '-' :: rest => (decimal_core rest).map (fun q => -q)
    | '+' :: rest => decimal_core rest
    | cs => decimal_core cs
  core.map toFloat64

/-- One targets line: exactly two tokens, the second a float literal
(the (a, b) unpacking plus float(b) of main.py line 24). -/
def parse_pair : List String → Option (String × ℚ)
  | [a, b] => (py_float? b).map (fun q => (a, q))
  | _ => none

/-- Python dict(list-of-pairs): first-insertion order, last value wins. -/
def dict_insert (acc : List (String × ℚ)) (kv : String × ℚ) : List (String × ℚ) :=
  if acc.any (fun p => p.1 = kv.1) then
    acc.map (fun p => if p.1 = kv.1 then (p.1, kv.2) else p)
  else acc ++ [kv]

def to_dict (l : List (String × ℚ)) : List (String × ℚ) :=
  l.foldl dict_insert []

/-- main.py lines 23-24: split the targets entry into lines and whitespace
tokens, parse each line as (asset, float), build the dict.  none models the
ValueError path (lines 25-27). -/
def parse_targets (s : String) : Option (List (String × ℚ)) :=
  (((py_split_lines s).map py_split_ws).mapM parse_pair).map to_dict

/-! ### Venue adapter interface and portfolio model

The engine modules (CCXTExchange, Portfolio, SimpleBalancer, Executor) are
imported by main.py but absent from the repository snapshot; they are
modelled from the specification below.  The venue's observable behaviour is
an oracle structure: balances, prices, fee schedule, cancellation and
submission outcomes (spec 6). -/

inductive SubmitOutcome where
  | filled
  | rejected (reason : String)
  | error
deriving DecidableEq

def SubmitOutcome.status : SubmitOutcome → OrderStatus
  | .filled => .FILLED
  | .rejected _ => .REJECTED
  | .error => .SUBMIT_ERROR

def SubmitOutcome.is_filled : SubmitOutcome → Bool
  | .filled => true
  | _ => false

/-- The external venue, as the core observes it (spec 6): balance and price
lookups, bid/ask quotes and the fee schedule for pricing, plus the outcomes
the venue would give to cancellation and to each submitted order. -/
structure ExchangeEnv where
  name : String
  balances : List (String × ℚ)
  price : String → ℚ
  bid : String → ℚ
  ask : String → ℚ
  break_even : String → Side → ℚ → ℚ
  fee : Order → ℚ
  cancel_ok : Bool
  cancelled : List (String × String)
  submit_result : Order → SubmitOutcome

/-- Association-list lookup with Python dict.get(, 0)-like default. -/
def assoc_get (l : List (String × ℚ)) (k : String) : ℚ :=
  match l.find? (fun p => p.1 == k) with
  | some p => p.2
  | none => 0

def qmin (a b : ℚ) : ℚ := if a ≤ b then a else b

def qsum (l : List ℚ) : ℚ := l.foldl qadd 0

/-- Modelled from the spec: the Portfolio entity of section 3 (its module is
not in the repository snapshot).  It owns a snapshot of holdings, the target
weights, the prices used at valuation time, the threshold and the quote
currency. -/
structure Portfolio where
  targets : List (String × ℚ)
  balances : List (String × ℚ)
  price : String → ℚ
  threshold : ℚ
  quote_currency : String

def Portfolio.assets (pf : Portfolio) : List String := pf.targets.map (fun p => p.1)

/-- Price of an asset in the quote currency; the quote currency against
itself is 1 (spec 4.1). -/
def Portfolio.price_of (pf : Portfolio) (a : String) : ℚ :=
  if a = pf.quote_currency then 1 else pf.price a

def Portfolio.asset_value (pf : Portfolio) (a : String) : ℚ :=
  qmul (assoc_get pf.balances a) (pf.price_of a)

/-- Total valuation in quote currency (spec 4.1). -/
def Portfolio.valuation_quote (pf : Portfolio) : ℚ :=
  qsum (pf.assets.map (fun a => pf.asset_value a))

/-- Percentage share of an asset; 0 when total valuation is 0 (spec 4.1). -/
def Portfolio.pct (pf : Portfolio) (a : String) : ℚ :=
  if pf.valuation_quote = 0 then 0
  else qdiv (qmul 100 (pf.asset_value a)) pf.valuation_quote

def Portfolio.target_pct (pf : Portfolio) (a : String) : ℚ := assoc_get pf.targets a

/-- Signed deviation of actual share from target share (spec 4.2). -/
def Portfolio.deviation (pf : Portfolio) (a : String) : ℚ :=
  qsub (pf.pct a) (pf.target_pct a)

def qmax (a b : ℚ) : ℚ := if a ≤ b then b else a

/-- Maximum absolute deviation over the target assets (spec 4.2). -/
def Portfolio.balance_max_error (pf : Portfolio) : ℚ :=
  (pf.assets.map (fun a => qabs (pf.deviation a))).foldl qmax 0

/-- needsBalancing = max deviation > threshold (spec 4.2; boundary equal to
the threshold is false). -/
def Portfolio.needs_balancing (pf : Portfolio) : Bool :=
  decide (pf.threshold < pf.balance_max_error)

/-- Modelled from the spec: Portfolio.make_portfolio (main.py line 52; its
module is not in the repository snapshot).  Values the target assets from
the venue's balances and prices (spec 4.1); the adapter is scoped to the
target currencies (main.py lines 37-40). -/
def Portfolio.make_portfolio (targets : List (String × ℚ)) (env : ExchangeEnv)
    (threshold : ℚ) (valuebase : String) : Portfolio :=
  { targets := targets
    balances := targets.map (fun p => (p.1, assoc_get env.balances p.1))
    price := env.price
    threshold := threshold
    quote_currency := valuebase }

/-! ### Trade planner (spec 4.3), modelled from the spec
(SimpleBalancer is not in the repository snapshot). -/

/-- Modelled from the spec: limit-price policy per mode (spec 4.3 step 5):
mid = bid/ask midpoint, passive = resting side that favours the trader,
cheap = the fee schedule's break-even price for side and amount. -/
def limit_price (env : ExchangeEnv) (mode : Mode) (side : Side) (a : String) (amt : ℚ) : ℚ :=
  match mode with
  | .mid => qdiv (qadd (env.bid a) (env.ask a)) 2
  | .passive => match side with | .BUY => env.bid a | .SELL => env.ask a
  | .cheap => env.break_even a side amt

/-- Choose the most over-allocated entry: largest deviation, ties broken by
lexically smaller symbol (spec 4.3 steps 2-3 and the determinism rule). -/
def pick_over (l : List (String × ℚ)) : Option (String × ℚ) :=
  l.foldl (fun acc p =>
    match acc with
    | none => some p
    | some q => if (if p.2 = q.2 then p.1 < q.1 else q.2 < p.2) then some p else some q) none

/-- Choose the most under-allocated entry: most negative deviation, ties
broken by lexically smaller symbol. -/
def pick_under (l : List (String × ℚ)) : Option (String × ℚ) :=
  l.foldl (fun acc p =>
    match acc with
    | none => some p
    | some q => if (if p.2 = q.2 then p.1 < q.1 else p.2 < q.2) then some p else some q) none

/-- Add d to the balance of asset a, when a is tracked. -/
def upd_bal (bals : List (String × ℚ)) (a : String) (d : ℚ) : List (String × ℚ) :=
  bals.map (fun p => if p.1 = a then (p.1, qadd p.2 d) else p)

/-- Modelled from the spec: apply one pairing's trades to the holdings
snapshot.  Selling moves v quote-value out of the seller into the quote
currency, buying moves it from the quote currency into the buyer; a side
that is itself the quote currency needs no order (spec 4.3 step 3). -/
def apply_pair (pf : Portfolio) (s b : String) (sell_amt buy_amt v : ℚ) : Portfolio :=
  let bals1 := if s = pf.quote_currency then pf.balances
    else upd_bal (upd_bal pf.balances s (-sell_amt)) pf.quote_currency v
  let bals2 := if b = pf.quote_currency then bals1
    else upd_bal (upd_bal bals1 b buy_amt) pf.quote_currency (-v)
  { pf with balances := bals2 }

/-- Modelled from the spec: one greedy pairing (spec 4.3 steps 1-3 and the
edge cases).  none when all deviations are within threshold, when either
side of the pairing is missing, or when no positive-value trade exists
(the degenerate no-plan cases of step 4); the sell is clamped to the
available balance. -/
def pair_orders (pf : Portfolio) (env : ExchangeEnv) (mode : Mode) :
    Option (List Order × Portfolio) :=
  if pf.balance_max_error ≤ pf.threshold then none
  else
    let devs := pf.assets.map (fun a => (a, pf.deviation a))
    match pick_over (devs.filter (fun p => decide (0 < p.2))),
          pick_under (devs.filter (fun p => decide (p.2 < 0))) with
    | some s, some b =>
      let total := pf.valuation_quote
      let v := qmin (qdiv (qmul s.2 total) 100) (qdiv (qmul (-b.2) total) 100)
      let ps := pf.price_of s.1
      let pb := pf.price_of b.1
      if ps ≤ 0 ∨ pb ≤ 0 then none
      else
        let v2 := qmin v (qmul (assoc_get pf.balances s.1) ps)
        if v2 ≤ 0 then none
        else
          let sell_amt := qdiv v2 ps
          let buy_amt := qdiv v2 pb
          let os :=
            (if s.1 = pf.quote_currency then [] else
              [{ asset := s.1, side := Side.SELL, amount := sell_amt,
                 limit_price := limit_price env mode Side.SELL s.1 sell_amt,
                 mode := mode }]) ++
            (if b.1 = pf.quote_currency then [] else
              [{ asset := b.1, side := Side.BUY, amount := buy_amt,
                 limit_price := limit_price env mode Side.BUY b.1 buy_amt,
                 mode := mode }])
          if os.isEmpty then none
          else some (os, apply_pair pf s.1 b.1 sell_amt buy_amt v2)
    | _, _ => none

/-- Modelled from the spec: the greedy pairing loop (spec 4.3 step 4).
Each pairing proposes one or two orders (sell before the paired buy);
the loop stops when the next pairing would exceed the remaining order
budget, when deviations are within threshold, or when no improving pairing
exists.  fuel bounds the iteration count structurally; one unit of budget
is consumed per order, so fuel = budget suffices. -/
def plan_loop (env : ExchangeEnv) (mode : Mode) :
    ℕ → Portfolio → ℕ → List Order × Portfolio
  | 0, pf, _ => ([], pf)
  | fuel + 1, pf, budget =>
    match pair_orders pf env mode with
    | none => ([], pf)
    | some (os, pf2) =>
      if os.length ≤ budget ∧ os.length ≠ 0 then
        let rest := plan_loop env mode fuel pf2 (budget - os.length)
        (os ++ rest.1, rest.2)
      else ([], pf)

/-- Modelled from the spec: SimpleBalancer (main.py line 64), the Plan
contract of spec 4.3: at most max_orders orders, plus the simulated
post-trade holdings. -/
def SimpleBalancer.balance (pf : Portfolio) (env : ExchangeEnv)
    (max_orders : ℕ) (mode : Mode) : List Order × Portfolio :=
  plan_loop env mode max_orders pf max_orders

/-! ### Execution supervisor (spec 4.4), modelled from the spec
(Executor is not in the repository snapshot). -/

structure ExecOpts where
  force : Bool
  trade : Bool
  max_orders : ℕ
  mode : Mode

/-- The run summary of spec 3: initial and proposed portfolios, the full
proposed order list with the per-order states, the submitted-order outcomes
partitioned into successes and failures, and the total estimated fee. -/
structure ExecResult where
  initial_portfolio : Portfolio
  proposed_portfolio : Option Portfolio
  orders : List Order
  order_states : List OrderStatus
  success : List Order
  errors : List Order
  total_fee : ℚ

/-- Fees are applied against the quote-currency balance of the proposed
portfolio (spec 4.3 step 6). -/
def apply_fee (pf : Portfolio) (fee : ℚ) : Portfolio :=
  { pf with balances := upd_bal pf.balances pf.quote_currency (-fee) }

/-- Modelled from the spec: Executor.run (main.py lines 65-69), the Execute
contract of spec 4.4.  A portfolio within threshold and not forced is left
untouched: no plan, no orders, no submission.  With trade=false the orders
all stay PROPOSED and nothing is submitted; with trade=true each order is
submitted in planner order and its terminal outcome recorded.  The per-order
retry/backoff bound and the dependency-skip rule of spec 4.4 are not
modelled (no claim depends on them): each order is submitted once. -/
def Executor.run (pf : Portfolio) (env : ExchangeEnv) (opts : ExecOpts) :
    ExecResult × List Event :=
  if pf.needs_balancing = false ∧ opts.force = false then
    ({ initial_portfolio := pf, proposed_portfolio := none, orders := [],
       order_states := [], success := [], errors := [], total_fee := 0 }, [])
  else
    let plan := SimpleBalancer.balance pf env opts.max_orders opts.mode
    let orders := plan.1
    let fee := qsum (orders.map env.fee)
    let proposed := if orders.isEmpty then none else some (apply_fee plan.2 fee)
    if opts.trade then
      let outs := orders.map (fun o => (o, env.submit_result o))
      ({ initial_portfolio := pf, proposed_portfolio := proposed, orders := orders,
         order_states := outs.map (fun p => p.2.status),
         success := (outs.filter (fun p => p.2.is_filled)).map (fun p => p.1),
         errors := (outs.filter (fun p => ! p.2.is_filled)).map (fun p => p.1),
         total_fee := fee }, orders.map Event.submit_order)
    else
      ({ initial_portfolio := pf, proposed_portfolio := proposed, orders := orders,
         order_states := orders.map (fun _ => OrderStatus.PROPOSED),
         success := [], errors := [], total_fee := fee }, [])

/-! ### The balancing run (main.py lines 19-123) -/

/-- A portfolio section of portfolios.ini as the driver reads it.  The
threshold entry stays a string (main.py line 49 converts it with float());
the targets entry stays the raw multi-line string of line 23. -/
structure Config where
  targets : String
  exchange : String
  api_key : String
  api_secret : String
  valuebase : Option String
  threshold : String
deriving DecidableEq

/-- main.py line 35: portfolio_config.get('valuebase') or 'USDT'.
.get gives None when the key is absent; `or` replaces every falsy value
(None and the empty string) by 'USDT'. -/
def effective_valuebase : Option String → String
  | none => "USDT"
  | some s => if s = "" then "USDT" else s

def targets_err_msg : String := "Targets format invalid"

def total_err_msg : String := "Total target needs to equal 100"

def cancel_fail_msg : String := "Cancelling open orders failed"

/-- Modelled from the spec: CCXTExchange.cancel_orders (main.py line 46; the
adapter module is not in the repository snapshot).  Best-effort cancellation
of open orders for the portfolio's assets (spec 4.4, 6): on success the
cancelled orders are returned; a failure is logged as a warning and does not
abort the run. -/
def cancel_orders (env : ExchangeEnv) : List (String × String) × List Event :=
  if env.cancel_ok then (env.cancelled, [Event.cancel_open_orders])
  else ([], [Event.cancel_open_orders, Event.log .warning cancel_fail_msg])

/-- main.py lines 44-47: the info line, the venue call, then one info line
per cancelled order. -/
def cancel_trace (env : ExchangeEnv) : List Event :=
  let r := cancel_orders env
  [Event.log .info "Cancelling open orders..."] ++ r.2 ++
    r.1.map (fun so => Event.log .info ("Cancelled order: " ++ so.1 ++ " " ++ so.2))

/-- Display form of an order for the driver's log lines (the Order class
with its str() is not in the repository snapshot). -/
def order_str (o : Order) : String :=
  (match o.side with | Side.SELL => "SELL " | Side.BUY => "BUY ") ++ o.asset

/-- main.py lines 79-123: the driver's reporting after the executor ran.
Within threshold and not forced it stops at 'No balancing needed' (line 81);
without a proposed portfolio it stops at line 90; otherwise with trade it
lists submitted and failed orders, without trade the full proposed order
list.  The purely numeric statistics lines (54-63, 71-77, 92-113) are log
formatting only and are not modelled. -/
def report_events (pf : Portfolio) (res : ExecResult) (trade force : Bool) : List Event :=
  if pf.needs_balancing = false ∧ force = false then
    [Event.log .info "No balancing needed"]
  else
    match res.proposed_portfolio with
    | none => [Event.log .info "Could not calculate a better portfolio"]
    | some _ =>
      if trade then
        res.success.map (fun o => Event.log .info ("  Submitted: " ++ order_str o)) ++
        res.errors.map (fun o => Event.log .info ("  Failed: " ++ order_str o))
      else
        res.orders.map (fun o => Event.log .info ("  " ++ order_str o))

/-- Outcome of one balancing run.  targets_invalid is the sys.exit(1) of
line 27; total_mismatch the early return of line 33; threshold_invalid the
uncaught ValueError of line 49; completed carries the executor's result. -/
inductive RunResult where
  | targets_invalid
  | total_mismatch (total : ℚ)
  | threshold_invalid
  | completed (res : ExecResult)

def RunResult.is_completed : RunResult → Bool
  | .completed _ => true
  | _ => false

/-- main.py lines 19-123, the balancing entry point for one portfolio.
The set_up_logger call (lines 20, 126-132) configures a process-local log
file handler and is not modelled.  int(max_orders) of line 50 is reflected
by typing max_orders as ℕ.  The returned trace records venue contacts and
log lines in program order. -/
def balancing (cfg : Config) (trade force : Bool) (max_orders : ℕ)
    (cancel : Bool) (mode : Mode) (env : ExchangeEnv) : RunResult × List Event :=
  match parse_targets cfg.targets with
  | none => (RunResult.targets_invalid, [Event.log .error targets_err_msg])
  | some targets =>
    let total := py_sum (targets.map (fun p => p.2))
    if total = 100 then
      let valuebase := effective_valuebase cfg.valuebase
      let init_tr := [Event.exchange_init env.name]
      let cancel_tr := if cancel then cancel_trace env else []
      match py_float? cfg.threshold with
      | none => (RunResult.threshold_invalid, init_tr ++ cancel_tr)
      | some threshold =>
        let pf := Portfolio.make_portfolio targets env threshold valuebase
        let exec := Executor.run pf env ⟨force, trade, max_orders, mode⟩
        (RunResult.completed exec.1,
          init_tr ++ cancel_tr ++ [Event.fetch_balances, Event.fetch_prices]
            ++ exec.2 ++ report_events pf exec.1 trade force)
    else (RunResult.total_mismatch total, [Event.log .error total_err_msg])

/-! ### The driver (main.py lines 135-171) -/

/-- The command line before argparse validation. -/
structure RawArgs where
  trade : Bool
  force : Bool
  max_orders : ℕ
  cancel : Bool
  log_dir : String
  mode : Option String
  portfolio : Option (List String)
deriving DecidableEq

/-- The command line after argparse accepted it. -/
structure Args where
  trade : Bool
  force : Bool
  max_orders : ℕ
  cancel : Bool
  log_dir : String
  mode : Mode
  portfolio : List String
deriving DecidableEq

/-- main.py lines 153-155: argparse choices for --mode are exactly mid,
passive and cheap, with default mid when the flag is absent; any other
value is rejected (argparse exits before anything runs). -/
def parse_mode : Option String → Option Mode
  | none => some Mode.mid
  | some s =>
    if s = "mid" then some Mode.mid
    else if s = "passive" then some Mode.passive
    else if s = "cheap" then some Mode.cheap
    else none

/-- main.py lines 156-157: argparse choices for --portfolio are the sections
of portfolios.ini, nargs='+' requires at least one value when the flag is
given, and the default is all sections. -/
def parse_portfolio_arg (sections : List String) :
    Option (List String) → Option (List String)
  | none => some sections
  | some sel =>
    if sel ≠ [] ∧ sel.all (fun s => sections.contains s) then some sel else none

/-- argparse over the flags the claims touch (lines 139-158); none models
the parser exiting on an invalid value. -/
def parse_args (sections : List String) (raw : RawArgs) : Option Args :=
  match parse_mode raw.mode, parse_portfolio_arg sections raw.portfolio with
  | some m, some sel =>
    some { trade := raw.trade, force := raw.force, max_orders := raw.max_orders,
           cancel := raw.cancel, log_dir := raw.log_dir, mode := m,
           portfolio := sel }
  | _, _ => none

/-- main.py lines 160-171: the pool starmaps balancing over
p_config.sections() zipped with the shared flags.  Note the zip iterates the
ini's sections, not args.portfolio.  envs gives each portfolio's venue
(each worker owns its own connection, spec 5). -/
def main_run (ini : List (String × Config)) (raw : RawArgs)
    (envs : String → ExchangeEnv) :
    Option (List (String × (RunResult × List Event))) :=
  match parse_args (ini.map (fun p => p.1)) raw with
  | none => none
  | some args =>
    some (ini.map (fun p =>
      (p.1, balancing p.2 args.trade args.force args.max_orders args.cancel
        args.mode (envs p.1))))

/-! ### Concrete fixtures used by the model-validation examples and the
claim witnesses -/

/-- The venue of the worked example in spec section 8. -/
def env0 : ExchangeEnv :=
  { name := "binance", balances := [("BTC", 1), ("USDT", 9000)],
    price := fun a => if a = "BTC" then 10000 else 1,
    bid := fun _ => 1, ask := fun _ => 1, break_even := fun _ _ _ => 1,
    fee := fun _ => 0, cancel_ok := true, cancelled := [],
    submit_result := fun _ => SubmitOutcome.filled }

/-- The portfolio configuration of the worked example in spec section 8. -/
def cfg0 : Config :=
  { targets := "BTC 50\nUSDT 50", exchange := "binance", api_key := "k",
    api_secret := "s", valuebase := none, threshold := "1" }

/-- A configuration whose parsed weights sum to 99. -/
def cfg_bad_total : Config :=
  { targets := "BTC 50\nUSDT 49", exchange := "binance", api_key := "k",
    api_secret := "s", valuebase := none, threshold := "1" }

/-- A configuration whose second target line has no numeric weight. -/
def cfg_bad_targets : Config :=
  { targets := "BTC 50\nUSDT fifty", exchange := "binance", api_key := "k",
    api_secret := "s", valuebase := none, threshold := "1" }

/-- Weights 28.1, 35.95, 35.95: exactly 100 as decimals, but their float
sum is not 100, so the driver refuses the portfolio. -/
def cfg_decimal_hundred : Config :=
  { targets := "BTC 28.1\nETH 35.95\nUSDT 35.95", exchange := "binance",
    api_key := "k", api_secret := "s", valuebase := none, threshold := "1" }

/-- Two ini sections for the selection witness. -/
def ini9 : List (String × Config) := [("p1", cfg0), ("p2", cfg0)]

def raw_sel : RawArgs :=
  { trade := false, force := false, max_orders := 5, cancel := false,
    log_dir := "logs", mode := none, portfolio := some ["p1"] }

def raw_nosel : RawArgs :=
  { trade := false, force := false, max_orders := 5, cancel := false,
    log_dir := "logs", mode := none, portfolio := none }

/-- A venue holding only quote currency, for the within-threshold witness. -/
def env_flat : ExchangeEnv :=
  { name := "binance", balances := [("USDT", 5)],
    price := fun _ => 1,
    bid := fun _ => 1, ask := fun _ => 1, break_even := fun _ _ _ => 1,
    fee := fun _ => 0, cancel_ok := true, cancelled := [],
    submit_result := fun _ => SubmitOutcome.filled }

def cfg_flat : Config :=
  { targets := "USDT 100", exchange := "binance", api_key := "k",
    api_secret := "s", valuebase := none, threshold := "1" }

/-- The worked-example portfolio and a dry-run option set, shared fixtures. -/
def pf0 : Portfolio := Portfolio.make_portfolio [("BTC", 50), ("USDT", 50)] env0 1 "USDT"

def opts_dry : ExecOpts := { force := false, trade := false, max_orders := 5, mode := Mode.mid }

def env_cancel_fail : ExchangeEnv :=
  { name := "binance", balances := [("BTC", 1), ("USDT", 9000)],
    price := fun a => if a = "BTC" then 10000 else 1,
    bid := fun _ => 1, ask := fun _ => 1, break_even := fun _ _ _ => 1,
    fee := fun _ => 0, cancel_ok := false, cancelled := [],
    submit_result := fun _ => SubmitOutcome.filled }

/-! ### Model validation

The binary64 model is checked against the reference values of Python's own
float (0.1 = 3602879701896397/2^55, 28.1 = 3954723422784717/2^47,
35.95 = 2529756353187021/2^46), and the engine against the worked example of
spec section 8. -/

example : py_float? "50" = some 50 := by decide
example : py_float? "0.1" = some (Rat.divInt 3602879701896397 36028797018963968) := by decide
example : py_float? "0.1" ≠ some (Rat.divInt 1 10) := by decide
example : py_float? "abc" = none := by rfl
example : parse_targets "A 50\nB 49" = some [("A", 50), ("B", 49)] := by decide
example : py_sum [50, 49] = 99 := by decide
example : py_float? "28.1" = some (Rat.divInt 3954723422784717 140737488355328) := by decide
example : py_float? "35.95" = some (Rat.divInt 2529756353187021 70368744177664) := by decide
example : py_sum [Rat.divInt 3954723422784717 140737488355328,
    Rat.divInt 2529756353187021 70368744177664,
    Rat.divInt 2529756353187021 70368744177664] =
    Rat.divInt 7036874417766401 70368744177664 := by decide
example : Rat.divInt 7036874417766401 70368744177664 ≠ 100 := by decide

example : parse_targets cfg0.targets = some [("BTC", 50), ("USDT", 50)] := by decide
example : (Portfolio.make_portfolio [("BTC", 50), ("USDT", 50)] env0 1 "USDT").needs_balancing = true := by decide
example : (Portfolio.make_portfolio [("BTC", 50), ("USDT", 50)] env0 1 "USDT").valuation_quote = 19000 := by decide
example : (SimpleBalancer.balance (Portfolio.make_portfolio [("BTC", 50), ("USDT", 50)] env0 1 "USDT") env0 5 Mode.mid).1
    = [{ asset := "BTC", side := Side.SELL, amount := Rat.divInt 1 20, limit_price := 1, mode := Mode.mid }] := by decide
example : (balancing cfg0 false false 5 false Mode.mid env0).1.is_completed = true := by decide
example : (balancing cfg0 false false 5 false Mode.mid env0).2.filter Event.is_submit = [] := by decide
example : (balancing cfg0 true false 5 false Mode.mid env0).2.filter Event.is_submit
    = [Event.submit_order { asset := "BTC", side := Side.SELL, amount := Rat.divInt 1 20, limit_price := 1, mode := Mode.mid }] := by decide

/-! ### Helper lemmas -/

theorem qadd_eq (a b : ℚ) : qadd a b = a + b := by
  have ha : (a.den : ℚ) ≠ 0 := by exact_mod_cast a.den_nz
  have hb : (b.den : ℚ) ≠ 0 := by exact_mod_cast b.den_nz
  rw [qadd, Rat.divInt_eq_div]
  push_cast
  conv_rhs => rw [← Rat.num_div_den a, ← Rat.num_div_den b]
  rw [div_add_div _ _ ha hb]
  ring_nf

theorem qsub_eq (a b : ℚ) : qsub a b = a - b := by
  have ha : (a.den : ℚ) ≠ 0 := by exact_mod_cast a.den_nz
  have hb : (b.den : ℚ) ≠ 0 := by exact_mod_cast b.den_nz
  rw [qsub, Rat.divInt_eq_div]
  push_cast
  conv_rhs => rw [← Rat.num_div_den a, ← Rat.num_div_den b]
  rw [div_sub_div _ _ ha hb]
  ring_nf

theorem qmul_eq (a b : ℚ) : qmul a b = a * b := by
  have ha : (a.den : ℚ) ≠ 0 := by exact_mod_cast a.den_nz
  have hb : (b.den : ℚ) ≠ 0 := by exact_mod_cast b.den_nz
  rw [qmul, Rat.divInt_eq_div]
  push_cast
  conv_rhs => rw [← Rat.num_div_den a, ← Rat.num_div_den b]
  rw [div_mul_div_comm]

theorem qdiv_eq (a b : ℚ) : qdiv a b = a / b := by
  rcases eq_or_ne b 0 with rfl | hb0
  · simp [qdiv]
  · have ha : (a.den : ℚ) ≠ 0 := by exact_mod_cast a.den_nz
    have hb : (b.den : ℚ) ≠ 0 := by exact_mod_cast b.den_nz
    have hbn : (b.num : ℚ) ≠ 0 := by
      exact_mod_cast Rat.num_ne_zero.mpr hb0
    rw [qdiv, Rat.divInt_eq_div]
    push_cast
    conv_rhs => rw [← Rat.num_div_den a, ← Rat.num_div_den b]
    field_simp

theorem qabs_eq (q : ℚ) : qabs q = |q| := by
  by_cases h : q < 0
  · rw [qabs, if_pos h, abs_of_neg h]
  · rw [qabs, if_neg h, abs_of_nonneg (not_lt.mp h)]

theorem Executor.run_initial (pf : Portfolio) (env : ExchangeEnv) (opts : ExecOpts) :
    (Executor.run pf env opts).1.initial_portfolio = pf := by
  rw [Executor.run]
  split
  · rfl
  · split <;> rfl

/-! ### Claims -/

/-- C1: for every portfolio configuration whose parsed target weights do not
sum to 100 (float sum, as the code computes it), balancing stops with the
error log alone: the whole trace is one error line, so the exchange adapter
is never constructed, no balances or prices are fetched, no cancellation
happens and no order is placed. -/
theorem C1_bad_total_refuses (cfg : Config) (trade force : Bool) (max_orders : ℕ)
    (cancel : Bool) (mode : Mode) (env : ExchangeEnv) (ts : List (String × ℚ))
    (hp : parse_targets cfg.targets = some ts)
    (ht : py_sum (ts.map (fun p => p.2)) ≠ 100) :
    balancing cfg trade force max_orders cancel mode env =
      (RunResult.total_mismatch (py_sum (ts.map (fun p => p.2))),
       [Event.log .error total_err_msg]) := by
  rw [balancing, hp]
  simp only [if_neg ht]

theorem C1_bad_total_refuses_witness :
    parse_targets cfg_bad_total.targets = some [("BTC", 50), ("USDT", 49)] ∧
    py_sum [(50 : ℚ), 49] ≠ 100 ∧
    balancing cfg_bad_total false false 5 false Mode.mid env0 =
      (RunResult.total_mismatch (py_sum ([("BTC", (50 : ℚ)), ("USDT", 49)].map (fun p => p.2))),
       [Event.log .error total_err_msg]) :=
  ⟨by decide, by decide,
   C1_bad_total_refuses cfg_bad_total false false 5 false Mode.mid env0
     [("BTC", 50), ("USDT", 49)] (by decide) (by decide)⟩

/-- C7: a targets entry that does not parse into (asset, number) pairs stops
the run at once with only the error log (no venue contact of any kind), and
the driver applies balancing to each ini section independently, so the
failure is confined to that portfolio: every other section's result is the
same function of its own configuration and venue alone. -/
theorem C7_invalid_targets_isolated :
    (∀ (cfg : Config) (trade force : Bool) (max_orders : ℕ) (cancel : Bool)
       (mode : Mode) (env : ExchangeEnv),
      parse_targets cfg.targets = none →
      balancing cfg trade force max_orders cancel mode env =
        (RunResult.targets_invalid, [Event.log .error targets_err_msg])) ∧
    (∀ (ini : List (String × Config)) (raw : RawArgs) (envs : String → ExchangeEnv)
       (args : Args),
      parse_args (ini.map (fun p => p.1)) raw = some args →
      main_run ini raw envs =
        some (ini.map (fun p =>
          (p.1, balancing p.2 args.trade args.force args.max_orders args.cancel
            args.mode (envs p.1))))) := by
  constructor
  · intro cfg trade force max_orders cancel mode env hp
    rw [balancing, hp]
  · intro ini raw envs args h
    rw [main_run, h]

theorem C7_invalid_targets_isolated_witness :
    parse_targets cfg_bad_targets.targets = none ∧
    balancing cfg_bad_targets false false 5 false Mode.mid env0 =
      (RunResult.targets_invalid, [Event.log .error targets_err_msg]) ∧
    parse_args ([("p1", cfg_bad_targets), ("p2", cfg0)].map (fun p => p.1))
      { trade := false, force := false, max_orders := 5, cancel := false,
        log_dir := "logs", mode := none, portfolio := none } =
      some { trade := false, force := false, max_orders := 5, cancel := false,
             log_dir := "logs", mode := Mode.mid, portfolio := ["p1", "p2"] } ∧
    main_run [("p1", cfg_bad_targets), ("p2", cfg0)]
      { trade := false, force := false, max_orders := 5, cancel := false,
        log_dir := "logs", mode := none, portfolio := none } (fun _ => env0) =
      some ([("p1", cfg_bad_targets), ("p2", cfg0)].map (fun p =>
        (p.1, balancing p.2 false false 5 false Mode.mid ((fun _ => env0) p.1)))) :=
  ⟨by decide,
   C7_invalid_targets_isolated.1 cfg_bad_targets false false 5 false Mode.mid env0
     (by decide),
   by decide,
   C7_invalid_targets_isolated.2 [("p1", cfg_bad_targets), ("p2", cfg0)]
     { trade := false, force := false, max_orders := 5, cancel := false,
       log_dir := "logs", mode := none, portfolio := none } (fun _ => env0)
     { trade := false, force := false, max_orders := 5, cancel := false,
       log_dir := "logs", mode := Mode.mid, portfolio := ["p1", "p2"] }
     (by decide)⟩

/-- C8: the pricing mode is a closed enumeration: the default is mid, an
accepted mode string is exactly one of mid, passive, cheap, and any other
value makes the argument parser reject the command line, so no balancing
runs at all. -/
theorem C8_mode_closed :
    parse_mode none = some Mode.mid ∧
    (∀ (s : String) (m : Mode), parse_mode (some s) = some m →
      s = "mid" ∨ s = "passive" ∨ s = "cheap") ∧
    (∀ (ini : List (String × Config)) (raw : RawArgs) (envs : String → ExchangeEnv),
      parse_mode raw.mode = none → main_run ini raw envs = none) := by
  refine ⟨rfl, ?_, ?_⟩
  · intro s m h
    rw [parse_mode] at h
    split_ifs at h with h1 h2 h3
    · exact Or.inl h1
    · exact Or.inr (Or.inl h2)
    · exact Or.inr (Or.inr h3)
  · intro ini raw envs h
    rw [main_run, parse_args, h]

theorem C8_mode_closed_witness :
    parse_mode (some "fast") = none ∧
    main_run [("p1", cfg0)]
      { trade := false, force := false, max_orders := 5, cancel := false,
        log_dir := "logs", mode := some "fast", portfolio := none }
      (fun _ => env0) = none ∧
    (("passive" : String) = "mid" ∨ ("passive" : String) = "passive" ∨
      ("passive" : String) = "cheap") :=
  ⟨by decide,
   C8_mode_closed.2.2 [("p1", cfg0)]
     { trade := false, force := false, max_orders := 5, cancel := false,
       log_dir := "logs", mode := some "fast", portfolio := none }
     (fun _ => env0) (by decide),
   C8_mode_closed.2.1 "passive" Mode.passive (by decide)⟩

/-- Unfolding of a run that reaches the executor: parse succeeded, the float
sum of the parsed weights is 100 and the threshold parsed. -/
theorem balancing_completed_eq (cfg : Config) (trade force : Bool)
    (max_orders : ℕ) (cancel : Bool) (mode : Mode) (env : ExchangeEnv)
    (ts : List (String × ℚ)) (th : ℚ)
    (hp : parse_targets cfg.targets = some ts)
    (ht : py_sum (ts.map (fun p => p.2)) = 100)
    (hf : py_float? cfg.threshold = some th) :
    balancing cfg trade force max_orders cancel mode env =
      (RunResult.completed
        (Executor.run (Portfolio.make_portfolio ts env th (effective_valuebase cfg.valuebase))
          env { force := force, trade := trade, max_orders := max_orders, mode := mode }).1,
       [Event.exchange_init env.name] ++ (if cancel then cancel_trace env else []) ++
         [Event.fetch_balances, Event.fetch_prices] ++
         (Executor.run (Portfolio.make_portfolio ts env th (effective_valuebase cfg.valuebase))
           env { force := force, trade := trade, max_orders := max_orders, mode := mode }).2 ++
         report_events (Portfolio.make_portfolio ts env th (effective_valuebase cfg.valuebase))
           (Executor.run (Portfolio.make_portfolio ts env th (effective_valuebase cfg.valuebase))
             env { force := force, trade := trade, max_orders := max_orders, mode := mode }).1
           trade force) := by
  rw [balancing, hp]
  simp only [ht, hf, if_true, List.cons_append, List.nil_append]

/-- Unfolding of a run whose weight sum check fails. -/
theorem balancing_total_mismatch_eq (cfg : Config) (trade force : Bool)
    (max_orders : ℕ) (cancel : Bool) (mode : Mode) (env : ExchangeEnv)
    (ts : List (String × ℚ))
    (hp : parse_targets cfg.targets = some ts)
    (ht : py_sum (ts.map (fun p => p.2)) ≠ 100) :
    balancing cfg trade force max_orders cancel mode env =
      (RunResult.total_mismatch (py_sum (ts.map (fun p => p.2))),
       [Event.log .error total_err_msg]) := by
  rw [balancing, hp]
  simp only [if_neg ht]

/-- Unfolding of a run whose threshold entry does not parse. -/
theorem balancing_threshold_invalid_eq (cfg : Config) (trade force : Bool)
    (max_orders : ℕ) (cancel : Bool) (mode : Mode) (env : ExchangeEnv)
    (ts : List (String × ℚ))
    (hp : parse_targets cfg.targets = some ts)
    (ht : py_sum (ts.map (fun p => p.2)) = 100)
    (hf : py_float? cfg.threshold = none) :
    balancing cfg trade force max_orders cancel mode env =
      (RunResult.threshold_invalid,
       [Event.exchange_init env.name] ++ (if cancel then cancel_trace env else [])) := by
  rw [balancing, hp]
  simp only [ht, hf, if_true, List.cons_append, List.nil_append]

/-- C10: the quote currency used for valuation is USDT when the valuebase
entry is absent or empty, and exactly the configured value otherwise; every
completed run's initial portfolio carries that quote currency. -/
theorem C10_valuebase_default :
    effective_valuebase none = "USDT" ∧
    effective_valuebase (some "") = "USDT" ∧
    (∀ s : String, s ≠ "" → effective_valuebase (some s) = s) ∧
    (∀ (cfg : Config) (trade force : Bool) (max_orders : ℕ) (cancel : Bool)
       (mode : Mode) (env : ExchangeEnv) (r : ExecResult),
      (balancing cfg trade force max_orders cancel mode env).1 = RunResult.completed r →
      r.initial_portfolio.quote_currency = effective_valuebase cfg.valuebase) := by
  refine ⟨rfl, rfl, ?_, ?_⟩
  · intro s h
    rw [effective_valuebase, if_neg h]
  · intro cfg trade force max_orders cancel mode env r h
    cases hp : parse_targets cfg.targets with
    | none =>
      rw [balancing, hp] at h
      exact absurd h (by simp)
    | some ts =>
      by_cases ht : py_sum (ts.map (fun p => p.2)) = 100
      · cases hf : py_float? cfg.threshold with
        | none =>
          rw [balancing_threshold_invalid_eq cfg trade force max_orders cancel mode env ts hp ht hf] at h
          exact absurd h (by simp)
        | some th =>
          rw [balancing_completed_eq cfg trade force max_orders cancel mode env ts th hp ht hf] at h
          simp only [RunResult.completed.injEq] at h
          rw [← h, Executor.run_initial]
          rfl
      · rw [balancing_total_mismatch_eq cfg trade force max_orders cancel mode env ts hp ht] at h
        exact absurd h (by simp)

theorem C10_valuebase_default_witness :
    (("EUR" : String) ≠ "" ∧ effective_valuebase (some "EUR") = "EUR") ∧
    ((balancing cfg0 false false 5 false Mode.mid env0).1 =
      RunResult.completed
        ((Executor.run
          (Portfolio.make_portfolio [("BTC", 50), ("USDT", 50)] env0 1 "USDT")
          env0 ⟨false, false, 5, Mode.mid⟩).1) ∧
     ((Executor.run
          (Portfolio.make_portfolio [("BTC", 50), ("USDT", 50)] env0 1 "USDT")
          env0 ⟨false, false, 5, Mode.mid⟩).1).initial_portfolio.quote_currency =
        effective_valuebase cfg0.valuebase) :=
  ⟨⟨by decide, C10_valuebase_default.2.2.1 "EUR" (by decide)⟩,
   ⟨by rfl,
    C10_valuebase_default.2.2.2 cfg0 false false 5 false Mode.mid env0 _ (by rfl)⟩⟩

/-- C5 counterexample: the engine does not hold decimals.  The targets entry
"A 0.1\nB 99.9" parses to the binary64 neighbours of 0.1 and 99.9, not to
the decimals 1/10 and 999/10 themselves. -/
theorem C5_counterexample_float_not_decimal :
    parse_targets "A 0.1\nB 99.9" =
      some [("A", Rat.divInt 3602879701896397 36028797018963968),
            ("B", Rat.divInt 3514918771674317 35184372088832)] ∧
    Rat.divInt 3602879701896397 36028797018963968 ≠ Rat.divInt 1 10 ∧
    Rat.divInt 3514918771674317 35184372088832 ≠ Rat.divInt 999 10 :=
  ⟨by decide, by decide, by decide⟩

/-- C5 as amended: every amount, percentage and threshold the driver reads
is converted with Python float(), i.e. to the nearest IEEE-754 binary64
value, and the weight-sum check runs on those floats, so a targets file
whose weights sum to exactly 100 as decimals can be refused. -/
theorem C5_amended_binary64 :
    py_float? "0.1" = some (toFloat64 (Rat.divInt 1 10)) ∧
    toFloat64 (Rat.divInt 1 10) = Rat.divInt 3602879701896397 36028797018963968 ∧
    Rat.divInt 281 10 + Rat.divInt 3595 100 + Rat.divInt 3595 100 = 100 ∧
    (balancing cfg_decimal_hundred false false 5 false Mode.mid env0).1 =
      RunResult.total_mismatch (Rat.divInt 7036874417766401 70368744177664) ∧
    Rat.divInt 7036874417766401 70368744177664 ≠ 100 := by
  refine ⟨by decide, by decide, ?_, ?_, by decide⟩
  · simp only [Rat.divInt_eq_div]
    norm_num
  · have h := balancing_total_mismatch_eq cfg_decimal_hundred false false 5 false
      Mode.mid env0
      [("BTC", Rat.divInt 3954723422784717 140737488355328),
       ("ETH", Rat.divInt 2529756353187021 70368744177664),
       ("USDT", Rat.divInt 2529756353187021 70368744177664)]
      (by decide) (by decide)
    rw [h]
    exact congrArg RunResult.total_mismatch (by decide)

/-- What a successful argparse run determines: the pass-through flags come
from the raw command line and the mode comes from parse_mode. -/
theorem parse_args_spec (sections : List String) (raw : RawArgs) (args : Args)
    (h : parse_args sections raw = some args) :
    args.trade = raw.trade ∧ args.force = raw.force ∧
    args.max_orders = raw.max_orders ∧ args.cancel = raw.cancel ∧
    parse_mode raw.mode = some args.mode := by
  rw [parse_args] at h
  cases hm : parse_mode raw.mode with
  | none => rw [hm] at h; simp at h
  | some m =>
    rw [hm] at h
    cases hp : parse_portfolio_arg sections raw.portfolio with
    | none => rw [hp] at h; simp at h
    | some sel =>
      rw [hp] at h
      simp only [Option.some.injEq] at h
      subst h
      exact ⟨rfl, rfl, rfl, rfl, rfl⟩

/-- C9: the set of portfolios balanced is exactly the ini's section list,
whatever valid --portfolio selection was passed: two command lines that
agree on every flag except the portfolio selection produce identical runs,
and the names of the balanced portfolios are always all sections. -/
theorem C9_portfolio_selection_unused
    (ini : List (String × Config)) (raw1 raw2 : RawArgs)
    (envs : String → ExchangeEnv) (args1 args2 : Args)
    (h1 : parse_args (ini.map (fun p => p.1)) raw1 = some args1)
    (h2 : parse_args (ini.map (fun p => p.1)) raw2 = some args2)
    (et : raw2.trade = raw1.trade) (ef : raw2.force = raw1.force)
    (em : raw2.max_orders = raw1.max_orders) (ec : raw2.cancel = raw1.cancel)
    (emo : raw2.mode = raw1.mode) :
    main_run ini raw1 envs = main_run ini raw2 envs ∧
    (main_run ini raw1 envs).map (fun l => l.map (fun e => e.1)) =
      some (ini.map (fun p => p.1)) := by
  obtain ⟨t1, f1, m1, c1, md1⟩ := parse_args_spec _ _ _ h1
  obtain ⟨t2, f2, m2, c2, md2⟩ := parse_args_spec _ _ _ h2
  rw [emo, md1, Option.some.injEq] at md2
  constructor
  · simp only [main_run, h1, h2]
    rw [t1, f1, m1, c1, t2, f2, m2, c2, et, ef, em, ec, md2]
  · simp only [main_run, h1, Option.map, List.map_map]
    rfl

theorem C9_portfolio_selection_unused_witness :
    parse_args (ini9.map (fun p => p.1)) raw_sel =
      some { trade := false, force := false, max_orders := 5, cancel := false,
             log_dir := "logs", mode := Mode.mid, portfolio := ["p1"] } ∧
    main_run ini9 raw_sel (fun _ => env0) = main_run ini9 raw_nosel (fun _ => env0) ∧
    (main_run ini9 raw_sel (fun _ => env0)).map (fun l => l.map (fun e => e.1)) =
      some (ini9.map (fun p => p.1)) :=
  ⟨by decide,
   (C9_portfolio_selection_unused ini9 raw_sel raw_nosel (fun _ => env0)
     { trade := false, force := false, max_orders := 5, cancel := false,
       log_dir := "logs", mode := Mode.mid, portfolio := ["p1"] }
     { trade := false, force := false, max_orders := 5, cancel := false,
       log_dir := "logs", mode := Mode.mid, portfolio := ["p1", "p2"] }
     (by decide) (by decide) rfl rfl rfl rfl rfl).1,
   (C9_portfolio_selection_unused ini9 raw_sel raw_nosel (fun _ => env0)
     { trade := false, force := false, max_orders := 5, cancel := false,
       log_dir := "logs", mode := Mode.mid, portfolio := ["p1"] }
     { trade := false, force := false, max_orders := 5, cancel := false,
       log_dir := "logs", mode := Mode.mid, portfolio := ["p1", "p2"] }
     (by decide) (by decide) rfl rfl rfl rfl rfl).2⟩

/-- Cancellation produces venue-cancel and log events only, never an order
submission. -/
theorem cancel_trace_no_submit (env : ExchangeEnv) :
    ∀ e ∈ cancel_trace env, e.is_submit = false := by
  intro e he
  simp only [cancel_trace] at he
  rcases List.mem_append.mp he with h1 | h2
  · rcases List.mem_append.mp h1 with h3 | h4
    · rw [List.mem_singleton] at h3
      subst h3
      rfl
    · rw [cancel_orders] at h4
      by_cases hc : env.cancel_ok
      · rw [if_pos hc] at h4
        simp only [List.mem_cons, List.not_mem_nil, or_false] at h4
        subst h4
        rfl
      · rw [if_neg hc] at h4
        simp only [List.mem_cons, List.not_mem_nil, or_false] at h4
        rcases h4 with rfl | rfl <;> rfl
  · simp only [List.mem_map] at h2
    obtain ⟨so, hso, heq⟩ := h2
    subst heq
    rfl

theorem no_submit_in_opt_cancel (cancel : Bool) (env : ExchangeEnv) (e : Event)
    (he : e ∈ (if cancel then cancel_trace env else [])) : e.is_submit = false := by
  cases cancel
  · simp at he
  · exact cancel_trace_no_submit env e (by simpa using he)

/-- The executor of a portfolio that is within threshold and not forced. -/
theorem Executor.run_skip (pf : Portfolio) (env : ExchangeEnv) (opts : ExecOpts)
    (hn : pf.needs_balancing = false) (hf : opts.force = false) :
    Executor.run pf env opts =
      ({ initial_portfolio := pf, proposed_portfolio := none, orders := [],
         order_states := [], success := [], errors := [], total_fee := 0 }, []) := by
  rw [Executor.run, if_pos ⟨hn, hf⟩]

/-- C3: a portfolio whose needsBalancing is false, without the force option,
is left untouched: the executor returns proposedPortfolio none, an empty
order list and no submission events whatever the trade option says, and the
whole balancing run's trace contains no order submission. -/
theorem C3_within_threshold_untouched :
    (∀ (pf : Portfolio) (env : ExchangeEnv) (opts : ExecOpts),
      pf.needs_balancing = false → opts.force = false →
      Executor.run pf env opts =
        ({ initial_portfolio := pf, proposed_portfolio := none, orders := [],
           order_states := [], success := [], errors := [], total_fee := 0 }, [])) ∧
    (∀ (cfg : Config) (trade : Bool) (max_orders : ℕ) (cancel : Bool) (mode : Mode)
       (env : ExchangeEnv) (ts : List (String × ℚ)) (th : ℚ),
      parse_targets cfg.targets = some ts →
      py_float? cfg.threshold = some th →
      (Portfolio.make_portfolio ts env th (effective_valuebase cfg.valuebase)).needs_balancing = false →
      ∀ e ∈ (balancing cfg trade false max_orders cancel mode env).2,
        e.is_submit = false) := by
  refine ⟨fun pf env opts hn hf => Executor.run_skip pf env opts hn hf, ?_⟩
  intro cfg trade max_orders cancel mode env ts th hp hth hn e he
  by_cases ht : py_sum (ts.map (fun p => p.2)) = 100
  · rw [balancing_completed_eq cfg trade false max_orders cancel mode env ts th hp ht hth] at he
    rw [Executor.run_skip _ _ _ hn rfl] at he
    rw [report_events] at he
    simp only [List.append_assoc, List.cons_append, List.nil_append, List.append_nil,
      List.mem_append, List.mem_cons, List.not_mem_nil, or_false, false_or] at he
    rcases he with rfl | he | rfl | rfl | he
    · rfl
    · exact no_submit_in_opt_cancel cancel env e he
    · rfl
    · rfl
    · split at he <;> (rw [List.mem_singleton] at he; subst he; rfl)
  · rw [balancing_total_mismatch_eq cfg trade false max_orders cancel mode env ts hp ht] at he
    rw [List.mem_singleton] at he
    subst he
    rfl

theorem C3_within_threshold_untouched_witness :
    ((Portfolio.make_portfolio [("USDT", 100)] env_flat 1 "USDT").needs_balancing = false ∧
     Executor.run (Portfolio.make_portfolio [("USDT", 100)] env_flat 1 "USDT") env_flat
        { force := false, trade := true, max_orders := 5, mode := Mode.mid } =
       ({ initial_portfolio := Portfolio.make_portfolio [("USDT", 100)] env_flat 1 "USDT",
          proposed_portfolio := none, orders := [], order_states := [],
          success := [], errors := [], total_fee := 0 }, [])) ∧
    (∀ e ∈ (balancing cfg_flat true false 5 false Mode.mid env_flat).2,
      e.is_submit = false) :=
  ⟨⟨by decide,
    C3_within_threshold_untouched.1
      (Portfolio.make_portfolio [("USDT", 100)] env_flat 1 "USDT") env_flat
      { force := false, trade := true, max_orders := 5, mode := Mode.mid }
      (by decide) rfl⟩,
   C3_within_threshold_untouched.2 cfg_flat true 5 false Mode.mid env_flat
     [("USDT", 100)] 1 (by decide) (by decide) (by decide)⟩

/-- A dry-run executor performs no venue events. -/
theorem Executor.run_dry_trace (pf : Portfolio) (env : ExchangeEnv) (opts : ExecOpts)
    (htr : opts.trade = false) : (Executor.run pf env opts).2 = [] := by
  rw [Executor.run]
  by_cases h0 : pf.needs_balancing = false ∧ opts.force = false
  · rw [if_pos h0]
  · rw [if_neg h0, htr]
    simp

/-- A dry-run executor leaves every order state PROPOSED. -/
theorem Executor.run_dry_states (pf : Portfolio) (env : ExchangeEnv) (opts : ExecOpts)
    (htr : opts.trade = false) :
    ∀ st ∈ (Executor.run pf env opts).1.order_states, st = OrderStatus.PROPOSED := by
  intro st hst
  rw [Executor.run] at hst
  by_cases h0 : pf.needs_balancing = false ∧ opts.force = false
  · rw [if_pos h0] at hst
    simp at hst
  · rw [if_neg h0, htr] at hst
    simp only [Bool.false_eq_true, if_false, List.mem_map] at hst
    obtain ⟨o, ho, heq⟩ := hst
    exact heq.symm

/-- A dry-run executor that plans carries the planner's full order list. -/
theorem Executor.run_dry_orders (pf : Portfolio) (env : ExchangeEnv) (opts : ExecOpts)
    (htr : opts.trade = false) (h0 : ¬(pf.needs_balancing = false ∧ opts.force = false)) :
    (Executor.run pf env opts).1.orders =
      (SimpleBalancer.balance pf env opts.max_orders opts.mode).1 := by
  rw [Executor.run, if_neg h0, htr]
  simp

/-- Dry-run reporting displays exactly the proposed order list (main.py
lines 121-123); every reported line is a log event. -/
theorem report_events_no_submit (pf : Portfolio) (res : ExecResult) (trade force : Bool) :
    ∀ e ∈ report_events pf res trade force, e.is_submit = false := by
  intro e he
  rw [report_events] at he
  split at he
  · rw [List.mem_singleton] at he
    subst he
    rfl
  · cases hp : res.proposed_portfolio with
    | none =>
      rw [hp] at he
      rw [List.mem_singleton] at he
      subst he
      rfl
    | some pp =>
      rw [hp] at he
      by_cases htr : trade = true
      · rw [if_pos htr] at he
        rcases List.mem_append.mp he with h1 | h2
        · simp only [List.mem_map] at h1
          obtain ⟨o, ho, heq⟩ := h1
          exact heq ▸ rfl
        · simp only [List.mem_map] at h2
          obtain ⟨o, ho, heq⟩ := h2
          exact heq ▸ rfl
      · rw [if_neg htr] at he
        simp only [List.mem_map] at he
        obtain ⟨o, ho, heq⟩ := he
        exact heq ▸ rfl

/-- C4: with the trade option false nothing is ever submitted: the executor
emits no events at all and every order stays PROPOSED, yet the result still
carries the planner's full proposed order list, which the driver reports
line by line; the whole run's trace has no submission event. -/
theorem C4_dry_run_reports_only :
    (∀ (pf : Portfolio) (env : ExchangeEnv) (opts : ExecOpts),
      opts.trade = false →
      (Executor.run pf env opts).2 = [] ∧
      (∀ st ∈ (Executor.run pf env opts).1.order_states, st = OrderStatus.PROPOSED) ∧
      (¬(pf.needs_balancing = false ∧ opts.force = false) →
        (Executor.run pf env opts).1.orders =
          (SimpleBalancer.balance pf env opts.max_orders opts.mode).1)) ∧
    (∀ (pf : Portfolio) (res : ExecResult) (force : Bool) (pp : Portfolio),
      ¬(pf.needs_balancing = false ∧ force = false) →
      res.proposed_portfolio = some pp →
      report_events pf res false force =
        res.orders.map (fun o => Event.log .info ("  " ++ order_str o))) ∧
    (∀ (cfg : Config) (force : Bool) (max_orders : ℕ) (cancel : Bool) (mode : Mode)
       (env : ExchangeEnv),
      ∀ e ∈ (balancing cfg false force max_orders cancel mode env).2,
        e.is_submit = false) := by
  refine ⟨?_, ?_, ?_⟩
  · intro pf env opts htr
    exact ⟨Executor.run_dry_trace pf env opts htr,
           Executor.run_dry_states pf env opts htr,
           Executor.run_dry_orders pf env opts htr⟩
  · intro pf res force pp h0 hp
    rw [report_events, if_neg h0, hp]
    rfl
  · intro cfg force max_orders cancel mode env e he
    cases hp : parse_targets cfg.targets with
    | none =>
      rw [balancing, hp] at he
      rw [List.mem_singleton] at he
      subst he
      rfl
    | some ts =>
      by_cases ht : py_sum (ts.map (fun p => p.2)) = 100
      · cases hf : py_float? cfg.threshold with
        | none =>
          rw [balancing_threshold_invalid_eq cfg false force max_orders cancel mode env ts hp ht hf] at he
          rcases List.mem_append.mp he with h1 | h2
          · rw [List.mem_singleton] at h1
            subst h1
            rfl
          · exact no_submit_in_opt_cancel cancel env e h2
        | some th =>
          rw [balancing_completed_eq cfg false force max_orders cancel mode env ts th hp ht hf] at he
          rw [Executor.run_dry_trace _ _ _ rfl] at he
          simp only [List.append_assoc, List.cons_append, List.nil_append,
            List.append_nil, List.mem_append, List.mem_cons, List.not_mem_nil,
            or_false, false_or] at he
          rcases he with rfl | he | rfl | rfl | he
          · rfl
          · exact no_submit_in_opt_cancel cancel env e he
          · rfl
          · rfl
          · exact report_events_no_submit _ _ _ _ e he
      · rw [balancing_total_mismatch_eq cfg false force max_orders cancel mode env ts hp ht] at he
        rw [List.mem_singleton] at he
        subst he
        rfl

theorem C4_dry_run_reports_only_witness :
    ((Executor.run pf0 env0 opts_dry).2 = [] ∧
     (∀ st ∈ (Executor.run pf0 env0 opts_dry).1.order_states, st = OrderStatus.PROPOSED)) ∧
    (¬(pf0.needs_balancing = false ∧ false = false) ∧
     report_events pf0 (Executor.run pf0 env0 opts_dry).1 false false =
       (Executor.run pf0 env0 opts_dry).1.orders.map
         (fun o => Event.log .info ("  " ++ order_str o))) ∧
    (∀ e ∈ (balancing cfg0 false false 5 false Mode.mid env0).2, e.is_submit = false) :=
  ⟨⟨(C4_dry_run_reports_only.1 pf0 env0 opts_dry rfl).1,
    (C4_dry_run_reports_only.1 pf0 env0 opts_dry rfl).2.1⟩,
   ⟨by decide,
    C4_dry_run_reports_only.2.1 pf0 (Executor.run pf0 env0 opts_dry).1 false
      (apply_fee (SimpleBalancer.balance pf0 env0 5 Mode.mid).2
        (qsum (((SimpleBalancer.balance pf0 env0 5 Mode.mid).1).map env0.fee)))
      (by decide) (by rfl)⟩,
   C4_dry_run_reports_only.2.2 cfg0 false 5 false Mode.mid env0⟩

/-- C6: with the cancel option, cancellation runs after connecting and
before anything else: the trace places the cancel events (and, on a failing
cancellation, the warning log) strictly before the balance/price fetches,
the planner and the executor; the run still completes with the full
valuation, planning and execution pipeline. -/
theorem C6_cancel_failure_nonfatal
    (cfg : Config) (trade force : Bool) (max_orders : ℕ) (mode : Mode)
    (env : ExchangeEnv) (ts : List (String × ℚ)) (th : ℚ)
    (hp : parse_targets cfg.targets = some ts)
    (ht : py_sum (ts.map (fun p => p.2)) = 100)
    (hf : py_float? cfg.threshold = some th)
    (hc : env.cancel_ok = false) :
    balancing cfg trade force max_orders true mode env =
      (RunResult.completed
        (Executor.run (Portfolio.make_portfolio ts env th (effective_valuebase cfg.valuebase))
          env { force := force, trade := trade, max_orders := max_orders, mode := mode }).1,
       [Event.exchange_init env.name,
        Event.log .info "Cancelling open orders...",
        Event.cancel_open_orders,
        Event.log .warning cancel_fail_msg,
        Event.fetch_balances, Event.fetch_prices] ++
         (Executor.run (Portfolio.make_portfolio ts env th (effective_valuebase cfg.valuebase))
           env { force := force, trade := trade, max_orders := max_orders, mode := mode }).2 ++
         report_events (Portfolio.make_portfolio ts env th (effective_valuebase cfg.valuebase))
           (Executor.run (Portfolio.make_portfolio ts env th (effective_valuebase cfg.valuebase))
             env { force := force, trade := trade, max_orders := max_orders, mode := mode }).1
           trade force) := by
  rw [balancing_completed_eq cfg trade force max_orders true mode env ts th hp ht hf]
  simp only [cancel_trace, cancel_orders, hc, Bool.false_eq_true, if_false, if_true,
    List.map_nil, List.append_nil, List.cons_append, List.nil_append, List.append_assoc]

theorem C6_cancel_failure_nonfatal_witness :
    parse_targets cfg0.targets = some [("BTC", 50), ("USDT", 50)] ∧
    env_cancel_fail.cancel_ok = false ∧
    balancing cfg0 false false 5 true Mode.mid env_cancel_fail =
      (RunResult.completed
        (Executor.run (Portfolio.make_portfolio [("BTC", 50), ("USDT", 50)] env_cancel_fail 1 (effective_valuebase cfg0.valuebase))
          env_cancel_fail { force := false, trade := false, max_orders := 5, mode := Mode.mid }).1,
       [Event.exchange_init env_cancel_fail.name,
        Event.log .info "Cancelling open orders...",
        Event.cancel_open_orders,
        Event.log .warning cancel_fail_msg,
        Event.fetch_balances, Event.fetch_prices] ++
         (Executor.run (Portfolio.make_portfolio [("BTC", 50), ("USDT", 50)] env_cancel_fail 1 (effective_valuebase cfg0.valuebase))
           env_cancel_fail { force := false, trade := false, max_orders := 5, mode := Mode.mid }).2 ++
         report_events (Portfolio.make_portfolio [("BTC", 50), ("USDT", 50)] env_cancel_fail 1 (effective_valuebase cfg0.valuebase))
           (Executor.run (Portfolio.make_portfolio [("BTC", 50), ("USDT", 50)] env_cancel_fail 1 (effective_valuebase cfg0.valuebase))
             env_cancel_fail { force := false, trade := false, max_orders := 5, mode := Mode.mid }).1
           false false) :=
  ⟨by decide, by decide,
   C6_cancel_failure_nonfatal cfg0 false false 5 Mode.mid env_cancel_fail
     [("BTC", 50), ("USDT", 50)] 1 (by decide) (by decide) (by decide) (by decide)⟩

/-- The greedy loop never proposes more orders than its budget. -/
theorem plan_loop_length (env : ExchangeEnv) (mode : Mode) :
    ∀ (fuel : ℕ) (pf : Portfolio) (budget : ℕ),
      (plan_loop env mode fuel pf budget).1.length ≤ budget := by
  intro fuel
  induction fuel with
  | zero =>
    intro pf budget
    rw [plan_loop]
    simp
  | succ f ih =>
    intro pf budget
    cases hpo : pair_orders pf env mode with
    | none =>
      rw [plan_loop, hpo]
      simp
    | some x =>
      obtain ⟨os, pf2⟩ := x
      rw [plan_loop, hpo]
      dsimp only
      by_cases h : os.length ≤ budget ∧ os.length ≠ 0
      · rw [if_pos h]
        simp only [List.length_append]
        have hr := ih pf2 (budget - os.length)
        obtain ⟨hl, hn⟩ := h
        omega
      · rw [if_neg h]
        simp

/-- Raising the order budget only extends the plan: the loop with a smaller
budget produces a prefix of the loop with a larger one, so the cap never
changes the size or price of an order already planned. -/
theorem plan_loop_extends (env : ExchangeEnv) (mode : Mode) :
    ∀ (f1 : ℕ) (pf : Portfolio) (b1 f2 b2 : ℕ),
      b1 ≤ f1 → b1 ≤ b2 → b2 ≤ f2 →
      ∃ t, (plan_loop env mode f1 pf b1).1 ++ t = (plan_loop env mode f2 pf b2).1 := by
  intro f1
  induction f1 with
  | zero =>
    intro pf b1 f2 b2 hb1 h12 hb2
    refine ⟨(plan_loop env mode f2 pf b2).1, ?_⟩
    rw [plan_loop]
    simp
  | succ f ih =>
    intro pf b1 f2 b2 hb1 h12 hb2
    cases hpo : pair_orders pf env mode with
    | none =>
      refine ⟨(plan_loop env mode f2 pf b2).1, ?_⟩
      rw [plan_loop, hpo]
      simp
    | some x =>
      obtain ⟨os, pf2⟩ := x
      by_cases h1 : os.length ≤ b1 ∧ os.length ≠ 0
      · obtain ⟨hl, hn⟩ := h1
        cases f2 with
        | zero => omega
        | succ g =>
          have h2 : os.length ≤ b2 ∧ os.length ≠ 0 := ⟨le_trans hl h12, hn⟩
          obtain ⟨t, ht⟩ := ih pf2 (b1 - os.length) g (b2 - os.length)
            (by omega) (by omega) (by omega)
          refine ⟨t, ?_⟩
          rw [plan_loop, hpo]
          dsimp only
          rw [if_pos ⟨hl, hn⟩]
          conv_rhs => rw [plan_loop, hpo]
          dsimp only
          rw [if_pos h2]
          rw [List.append_assoc, ht]
      · refine ⟨(plan_loop env mode f2 pf b2).1, ?_⟩
        rw [plan_loop, hpo]
        dsimp only
        rw [if_neg h1]
        simp

/-- C2: the planner returns at most maxOrders orders, the executor's result
never carries more, and the cap only truncates the plan: with a larger cap
the same orders reappear unchanged, followed by possibly more, so the cap
bounds the count of orders and never the amount of an individual order. -/
theorem C2_max_orders_bounds_count
    (pf : Portfolio) (env : ExchangeEnv) (max_orders : ℕ) (mode : Mode) :
    (SimpleBalancer.balance pf env max_orders mode).1.length ≤ max_orders ∧
    (∀ opts : ExecOpts, (Executor.run pf env opts).1.orders.length ≤ opts.max_orders) ∧
    (∀ m2, max_orders ≤ m2 →
      ∃ t, (SimpleBalancer.balance pf env max_orders mode).1 ++ t =
           (SimpleBalancer.balance pf env m2 mode).1) := by
  refine ⟨plan_loop_length env mode max_orders pf max_orders, ?_, ?_⟩
  · intro opts
    rw [Executor.run]
    by_cases h0 : pf.needs_balancing = false ∧ opts.force = false
    · rw [if_pos h0]
      simp
    · rw [if_neg h0]
      cases htr : opts.trade
      · simp only [Bool.false_eq_true, if_false]
        exact plan_loop_length env opts.mode opts.max_orders pf opts.max_orders
      · simp only [if_true]
        exact plan_loop_length env opts.mode opts.max_orders pf opts.max_orders
  · intro m2 h
    exact plan_loop_extends env mode max_orders pf max_orders m2 m2 le_rfl h le_rfl

theorem C2_max_orders_bounds_count_witness :
    (SimpleBalancer.balance pf0 env0 5 Mode.mid).1.length ≤ 5 ∧
    (Executor.run pf0 env0 opts_dry).1.orders.length ≤ opts_dry.max_orders ∧
    (∃ t, (SimpleBalancer.balance pf0 env0 5 Mode.mid).1 ++ t =
          (SimpleBalancer.balance pf0 env0 7 Mode.mid).1) :=
  ⟨(C2_max_orders_bounds_count pf0 env0 5 Mode.mid).1,
   (C2_max_orders_bounds_count pf0 env0 5 Mode.mid).2.1 opts_dry,
   (C2_max_orders_bounds_count pf0 env0 5 Mode.mid).2.2 7 (by decide)⟩
